import Mathlib

/-!
Shallow embedding of the notification store of `packages/notifier`
(`src/store.ts`, `src/notify.ts`, `src/constants.ts`).

Modelling conventions:
* The ambient JavaScript clock (`Date.now()`) is threaded through every
  operation that reads it as an explicit `now : Int` argument.
* `setTimeout` scheduling is modelled explicitly: the auto-dismiss timer
  registry `dismissTimeouts` maps an id to the absolute time at which its
  timeout callback would fire (`armed-at + delay`), and the 300 ms delayed
  record deletion scheduled by `dismiss` appears in `pendingRemovals`
  together with the `NotifyItem` value captured by the closure.  Running
  such a scheduled deletion is the separate step `runRemoval`.
* A TypeScript optional field / `undefined` value is `Option`; `a ?? b` is
  `Option.getD`, and the object-spread merge `{...old, ...new}` is
  field-wise `new.f <|> old.f`.  Callback option fields (`onOpen`,
  `onClose`, `onDismiss`, `onUpdate`) are `Option Unit`: only their
  presence is observable to the store, their invocations are recorded in
  the ghost event log.
* Opaque functions held by the store (confirm resolvers) are represented
  by numeric tokens; invoking one is recorded in the ghost event log
  `events`, which also records listener broadcasts (`emit`) and callback
  invocations.  The log is observational instrumentation only: no store
  operation reads it.
* JS numbers standing for times and durations are modelled as `Int`
  (the code only adds, subtracts and compares them; non-finite values are
  outside this model).
-/

namespace Notifier

/-- Source `NotifyState` from `constants.ts` (`NotifyStateType`). -/
inductive NotifyState where
  | idle
  | loading
  | success
  | error
  | info
  | confirm
deriving DecidableEq, Repr

/-- Source `DismissReason` from `constants.ts`. -/
inductive DismissReason where
  | timeout
  | swipe
  | click
  | manual
  | replaced
deriving DecidableEq, Repr

/-- The option fields of `NotifyOptions` (`types.ts`) that the store and
facade read.  `action` values are opaque; they are represented by tokens. -/
structure NotifyOptions where
  message : Option String := none
  duration : Option Int := none
  position : Option String := none
  swipeToDismiss : Option Bool := none
  pauseOnHover : Option Bool := none
  clickToDismiss : Option Bool := none
  action : Option Nat := none
  onOpen : Option Unit := none
  onClose : Option Unit := none
  onDismiss : Option Unit := none
  onUpdate : Option Unit := none
deriving DecidableEq, Repr

/-- Source `Defaults.DURATION_MS` from `constants.ts`. -/
def Defaults.DURATION_MS : Int := 3000

/-- Source `Defaults.MAX_VISIBLE` from `constants.ts`. -/
def Defaults.MAX_VISIBLE : Nat := 5

/-- Source `Defaults.MESSAGES.LOADING` from `constants.ts`. -/
def Defaults.MESSAGES.LOADING : String := "Loading..."

/-- Source `Defaults.MESSAGES.SUCCESS` from `constants.ts`. -/
def Defaults.MESSAGES.SUCCESS : String := "Success"

/-- Source `Defaults.MESSAGES.ERROR` from `constants.ts`. -/
def Defaults.MESSAGES.ERROR : String := "Error"

/-- The 300 ms grace delay hard-coded in `dismiss` (`store.ts` line 296). -/
def GRACE_MS : Int := 300

/-- Source `NotifyItem` from `types.ts`.  `confirmResolver` holds the token of the
parked resolver function, or `none`. -/
structure NotifyItem where
  id : String
  state : NotifyState
  message : String
  options : NotifyOptions
  visible : Bool
  prevState : NotifyState
  confirmResolver : Option Nat
  createdAt : Int
  stateStartedAt : Int
  paused : Bool
  remainingTime : Option Int
deriving DecidableEq, Repr

/-- Ghost log of observable effects: listener broadcasts, confirm-resolver
invocations, lifecycle callback invocations, and `dismiss` entries (the
call together with its `reason` argument). -/
inductive Event where
  | emit
  | resolverCall (rid : Nat) (confirmed : Bool)
  | dismissCall (id : String) (reason : DismissReason)
  | onOpenCall (id : String)
  | onCloseCall (id : String)
  | onDismissCall (id : String) (reason : DismissReason)
  | onUpdateCall (id : String) (newState prevState : NotifyState)
deriving DecidableEq, Repr

/-- The module-level mutable state of `store.ts`: the `notifications` map
(as an insertion-ordered association list, matching JS `Map` iteration
order), the `dismissTimeouts` registry (id, absolute fire time), the
deletions scheduled by `dismiss` (id, absolute run time, captured item),
and the ghost event log. -/
structure StoreState where
  notifications : List (String × NotifyItem) := []
  dismissTimeouts : List (String × Int) := []
  pendingRemovals : List (String × Int × NotifyItem) := []
  events : List Event := []
deriving DecidableEq, Repr

/-- Empty store (module initialization). -/
def emptyStore : StoreState := {}

/-- Association-list lookup, mirroring `Map.get`. -/
def lookup (id : String) (l : List (String × NotifyItem)) : Option NotifyItem :=
  (l.find? (fun p => p.1 == id)).map (·.2)

/-- Source `Map.set`: replace in place when the key is present (JS `Map`
keeps the original insertion position), otherwise append.  Keys are unique
in a JS `Map`, so replacing the first occurrence is exact. -/
def mapSet (id : String) (item : NotifyItem) :
    List (String × NotifyItem) → List (String × NotifyItem)
  | [] => [(id, item)]
  | p :: ps => if p.1 == id then (id, item) :: ps else p :: mapSet id item ps

/-- Fire time currently registered for `id` in the timer registry. -/
def timeoutFor (id : String) (s : StoreState) : Option Int :=
  (s.dismissTimeouts.find? (fun p => p.1 == id)).map (·.2)

/-- Append an event to the ghost log. -/
def logEvent (e : Event) (s : StoreState) : StoreState :=
  { s with events := s.events ++ [e] }

/-- Conditionally append an event to the ghost log. -/
def logIf (b : Bool) (e : Event) (s : StoreState) : StoreState :=
  if b then logEvent e s else s

/-- Source `emit` from `store.ts`: broadcast to all listeners (ghost-logged). -/
def emit (s : StoreState) : StoreState := logEvent .emit s

/-- Source `clearDismissTimeout` from `store.ts`. -/
def clearDismissTimeout (id : String) (s : StoreState) : StoreState :=
  { s with dismissTimeouts := s.dismissTimeouts.filter (fun p => ¬(p.1 == id)) }

/-- Source `shouldAutoDismiss` from `store.ts`. -/
def shouldAutoDismiss (state : NotifyState) : Bool :=
  state == .success || state == .error || state == .info

/-- Source `setupAutoDismiss` from `store.ts`: clear any existing timer for the id
and register a fresh one whose callback would run `dismiss(id, timeout)`
after `duration` milliseconds (absolute fire time `now + duration`). -/
def setupAutoDismiss (id : String) (duration : Int) (now : Int) (s : StoreState) :
    StoreState :=
  let s := clearDismissTimeout id s
  { s with dismissTimeouts := s.dismissTimeouts ++ [(id, now + duration)] }

/-- Object-spread merge `{...old, ...new}` on options: a field of the new
object wins when present. -/
def mergeOptions (old new : NotifyOptions) : NotifyOptions where
  message := new.message <|> old.message
  duration := new.duration <|> old.duration
  position := new.position <|> old.position
  swipeToDismiss := new.swipeToDismiss <|> old.swipeToDismiss
  pauseOnHover := new.pauseOnHover <|> old.pauseOnHover
  clickToDismiss := new.clickToDismiss <|> old.clickToDismiss
  action := new.action <|> old.action
  onOpen := new.onOpen <|> old.onOpen
  onClose := new.onClose <|> old.onClose
  onDismiss := new.onDismiss <|> old.onDismiss
  onUpdate := new.onUpdate <|> old.onUpdate

/-- Source `getNotification` from `store.ts`. -/
def getNotification (id : String) (s : StoreState) : Option NotifyItem :=
  lookup id s.notifications

/-- The `NotifyItem` record built by `setState` (`store.ts` lines 138-150). -/
def setStateItem (id : String) (state : NotifyState) (message : String)
    (mergedOptions : NotifyOptions) (existing : Option NotifyItem)
    (prevState : NotifyState) (now : Int) : NotifyItem where
  id := id
  state := state
  message := message
  options := mergedOptions
  visible := true
  prevState := prevState
  confirmResolver := (existing.map (·.confirmResolver)).getD none
  createdAt := (existing.map (·.createdAt)).getD now
  stateStartedAt :=
    if existing.isSome ∧ state ≠ prevState then now
    else (existing.map (·.stateStartedAt)).getD now
  paused := false
  remainingTime := none

/-- Source `setState` from `store.ts`.  Upsert; clears the pending timer, merges
options (with the explicit `action: options.action ?? existing?.options?.action`
override, which under the `Option` merge model coincides with the spread),
fires `onUpdate` on a genuine state change, stores the rebuilt item, fires
`onOpen` for a new item, broadcasts, and arms the auto-dismiss timer when
the state auto-dismisses and the merged duration is not `0`. -/
def setState (id : String) (state : NotifyState) (message : String)
    (options : NotifyOptions) (now : Int) (s : StoreState) : StoreState :=
  let s := clearDismissTimeout id s
  let existing := getNotification id s
  let prevState := (existing.map (·.state)).getD .idle
  let mergedOptions := mergeOptions ((existing.map (·.options)).getD {}) options
  let s := logIf (existing.isSome && state != prevState && mergedOptions.onUpdate.isSome)
    (.onUpdateCall id state prevState) s
  let item := setStateItem id state message mergedOptions existing prevState now
  let s := { s with notifications := mapSet id item s.notifications }
  let s := logIf (existing.isNone && mergedOptions.onOpen.isSome) (.onOpenCall id) s
  let s := emit s
  if shouldAutoDismiss state && mergedOptions.duration != some 0 then
    setupAutoDismiss id (mergedOptions.duration.getD Defaults.DURATION_MS) now s
  else s

/-- Source `setConfirmState` from `store.ts`: upsert into `confirm` state with the
given resolver token; never arms a timer. -/
def setConfirmState (id : String) (message : String) (options : NotifyOptions)
    (resolver : Nat) (now : Int) (s : StoreState) : StoreState :=
  let s := clearDismissTimeout id s
  let existing := getNotification id s
  let prevState := (existing.map (·.state)).getD .idle
  let mergedOptions :=
    match existing with
    | some ex => mergeOptions ex.options options
    | none => options
  let item : NotifyItem :=
    { id := id
      state := .confirm
      message := message
      options := mergedOptions
      visible := true
      prevState := prevState
      confirmResolver := some resolver
      createdAt := (existing.map (·.createdAt)).getD now
      stateStartedAt := now
      paused := false
      remainingTime := none }
  let s := { s with notifications := mapSet id item s.notifications }
  let s := logIf (existing.isNone && mergedOptions.onOpen.isSome) (.onOpenCall id) s
  emit s

/-- Source `resolveConfirm` from `store.ts`: when a resolver is parked on the item,
detach it (store `null`) and then invoke it with `confirmed`. -/
def resolveConfirm (id : String) (confirmed : Bool) (s : StoreState) : StoreState :=
  match getNotification id s with
  | some item =>
    match item.confirmResolver with
    | some rid =>
      let s := { s with
        notifications := mapSet id { item with confirmResolver := none } s.notifications }
      logEvent (.resolverCall rid confirmed) s
    | none => s
  | none => s

/-- Source `pauseTimer` from `store.ts`: no-op when the item is unknown, already
paused, or has no registered timer; otherwise cancel the timer and save
`max 0 (duration - (now - stateStartedAt))` as the remaining time. -/
def pauseTimer (id : String) (now : Int) (s : StoreState) : StoreState :=
  match getNotification id s with
  | none => s
  | some item =>
    if item.paused then s
    else
      match timeoutFor id s with
      | none => s
      | some _ =>
        let s := clearDismissTimeout id s
        let elapsed := now - item.stateStartedAt
        let duration := item.options.duration.getD Defaults.DURATION_MS
        let remaining := max 0 (duration - elapsed)
        let s := { s with
          notifications :=
            mapSet id { item with paused := true, remainingTime := some remaining }
              s.notifications }
        emit s

/-- Source `resumeTimer` from `store.ts`: no-op unless paused; otherwise clear the
pause bookkeeping, reset `stateStartedAt` to now, and re-arm the timer for
the saved remaining time when the state auto-dismisses. -/
def resumeTimer (id : String) (now : Int) (s : StoreState) : StoreState :=
  match getNotification id s with
  | none => s
  | some item =>
    if ¬item.paused then s
    else
      let remaining := item.remainingTime.getD Defaults.DURATION_MS
      let s := { s with
        notifications :=
          mapSet id { item with paused := false, remainingTime := none, stateStartedAt := now }
            s.notifications }
      let s := if shouldAutoDismiss item.state then setupAutoDismiss id remaining now s else s
      emit s

/-- The invisible item written back by `dismiss` (`store.ts` line 286). -/
def dismissedItem (item : NotifyItem) : NotifyItem :=
  { item with visible := false, confirmResolver := none }

/-- Source `dismiss` from `store.ts`: no-op on an unknown id; otherwise cancel the
timer, force-resolve a pending confirm with `false`, fire `onDismiss`,
write back the item with `visible := false` and a cleared resolver slot,
broadcast, and schedule the actual deletion (which captures `item`) for
`GRACE_MS` later. -/
def dismiss (id : String) (reason : DismissReason) (now : Int) (s : StoreState) :
    StoreState :=
  match getNotification id s with
  | none => s
  | some item =>
    let s := logEvent (.dismissCall id reason) s
    let s := clearDismissTimeout id s
    let s :=
      match item.confirmResolver with
      | some rid => logEvent (.resolverCall rid false) s
      | none => s
    let s := logIf item.options.onDismiss.isSome (.onDismissCall id reason) s
    let s := { s with notifications := mapSet id (dismissedItem item) s.notifications }
    let s := emit s
    { s with pendingRemovals := s.pendingRemovals ++ [(id, now + GRACE_MS, item)] }

/-- The delayed deletion callback scheduled by `dismiss` (`store.ts` lines
290-296), parameterised by the `item` value the closure captured: delete
the record, fire `onClose` from the captured options, broadcast. -/
def runRemoval (id : String) (captured : NotifyItem) (s : StoreState) : StoreState :=
  let s := { s with notifications := s.notifications.filter (fun p => ¬(p.1 == id)) }
  let s := logIf captured.options.onClose.isSome (.onCloseCall id) s
  emit s

/-- Stable insertion (after all elements with `createdAt ≤`); building the
stable ascending sort used by `getNotifications`. -/
def insertByCreatedAt (x : NotifyItem) : List NotifyItem → List NotifyItem
  | [] => [x]
  | y :: ys =>
    if y.createdAt ≤ x.createdAt then y :: insertByCreatedAt x ys else x :: y :: ys

/-- The stable sort `(a, b) => a.createdAt - b.createdAt` applied by
`getNotifications` (JS `Array.prototype.sort` is stable). -/
def sortByCreatedAt (l : List NotifyItem) : List NotifyItem :=
  l.foldl (fun acc x => insertByCreatedAt x acc) []

/-- Source `getNotifications` from `store.ts`: all items, sorted by `createdAt`. -/
def getNotifications (s : StoreState) : List NotifyItem :=
  sortByCreatedAt (s.notifications.map (·.2))

/-- Source `enforceMaxVisible` from `store.ts`: among visible items other than
`excludeId`, when the count reaches `maxVisible`, dismiss the oldest
`count - maxVisible + 1` with reason `replaced`. -/
def enforceMaxVisible (maxVisible : Nat) (excludeId : Option String) (now : Int)
    (s : StoreState) : StoreState :=
  let items := getNotifications s
  let visibleItems := items.filter (fun it => it.visible && !(some it.id == excludeId))
  if maxVisible ≤ visibleItems.length then
    let toRemove := visibleItems.take (visibleItems.length - maxVisible + 1)
    toRemove.foldl (fun acc it => dismiss it.id .replaced now acc) s
  else s

/-- The item record built by `setConfirmState` (`store.ts` lines 191-203). -/
def confirmItem (id : String) (message : String) (mergedOptions : NotifyOptions)
    (resolver : Nat) (existing : Option NotifyItem) (prevState : NotifyState)
    (now : Int) : NotifyItem where
  id := id
  state := .confirm
  message := message
  options := mergedOptions
  visible := true
  prevState := prevState
  confirmResolver := some resolver
  createdAt := (existing.map (·.createdAt)).getD now
  stateStartedAt := now
  paused := false
  remainingTime := none

/-- The event-log suffix appended by a resident `dismiss` call. -/
def dismissEvents (id : String) (reason : DismissReason) (item : NotifyItem) :
    List Event :=
  [Event.dismissCall id reason]
    ++ (match item.confirmResolver with
        | some rid => [Event.resolverCall rid false]
        | none => [])
    ++ (if item.options.onDismiss.isSome then [Event.onDismissCall id reason] else [])
    ++ [Event.emit]

/-- The confirm-resolver invocations recorded in an event log, in order. -/
def resolverCalls (l : List Event) : List (Nat × Bool) :=
  l.filterMap (fun e =>
    match e with
    | .resolverCall rid c => some (rid, c)
    | _ => none)

/-- Well-formedness of reachable stores: map keys are unique (JS `Map`) and
every stored item carries its own key as `id`. -/
def WFStore (s : StoreState) : Prop :=
  (s.notifications.map (·.1)).Nodup ∧ ∀ p ∈ s.notifications, p.2.id = p.1

instance (s : StoreState) : Decidable (WFStore s) := by
  unfold WFStore
  infer_instance

/-! ### Facade (`notify.ts`) -/

/-- The fields of `NotifyContainerConfig` (`types.ts`) read by the embedded
facade paths. -/
structure NotifyContainerConfig where
  position : Option String := none
  maxVisible : Option Nat := none
  defaultDuration : Option Int := none
  swipeToDismiss : Option Bool := none
  pauseOnHover : Option Bool := none
  clickToDismiss : Option Bool := none
deriving DecidableEq, Repr

/-- The initial `globalConfig` of `notify.ts` (lines 29-36). -/
def initialGlobalConfig : NotifyContainerConfig where
  position := some "bottom"
  maxVisible := some Defaults.MAX_VISIBLE
  defaultDuration := some Defaults.DURATION_MS
  swipeToDismiss := some true
  pauseOnHover := some true
  clickToDismiss := some false

/-- The options literal
`{position: g.position, duration: g.defaultDuration, swipeToDismiss: g.swipeToDismiss,
pauseOnHover: g.pauseOnHover, clickToDismiss: g.clickToDismiss, ...opts}`
built by `createNotifyInstance`, `notify` and `notify.info`. -/
def configSpreadOptions (cfg : NotifyContainerConfig) (options : NotifyOptions) :
    NotifyOptions :=
  { options with
    position := options.position <|> cfg.position
    duration := options.duration <|> cfg.defaultDuration
    swipeToDismiss := options.swipeToDismiss <|> cfg.swipeToDismiss
    pauseOnHover := options.pauseOnHover <|> cfg.pauseOnHover
    clickToDismiss := options.clickToDismiss <|> cfg.clickToDismiss }

/-- JS truthiness of the optional string `resolvedOptions.message`
(`undefined` and the empty string are falsy). -/
def strTruthy : Option String → Bool
  | none => false
  | some m => !(m == "")

/-- Facade `notify(message, options)` with a string first argument
(`notify.ts` lines 167-196); `id` stands for the freshly generated id. -/
def notifyWithMessage (id : String) (msg : String) (options : NotifyOptions)
    (cfg : NotifyContainerConfig) (now : Int) (s : StoreState) : StoreState :=
  let resolvedOptions := { options with message := some msg }
  let s := enforceMaxVisible (cfg.maxVisible.getD Defaults.MAX_VISIBLE) (some id) now s
  if strTruthy resolvedOptions.message then
    setState id .info msg (configSpreadOptions cfg resolvedOptions) now s
  else s

/-- Facade `notify.info(message?, options?)` (`notify.ts` lines 241-254);
`id` stands for the freshly generated id. -/
def notifyInfo (id : String) (message : Option String) (options : NotifyOptions)
    (cfg : NotifyContainerConfig) (now : Int) (s : StoreState) : StoreState :=
  let s := enforceMaxVisible (cfg.maxVisible.getD Defaults.MAX_VISIBLE) (some id) now s
  setState id .info (message.getD Defaults.MESSAGES.LOADING)
    (configSpreadOptions cfg options) now s

/-- The `info` method of the chainable instance built by
`createNotifyInstance(id, baseOptions)` (`notify.ts` lines 65-111):
`setState(id, 'info', message ?? Defaults.MESSAGES.LOADING, mergedOptions)`. -/
def instanceInfo (id : String) (baseOptions : NotifyOptions)
    (cfg : NotifyContainerConfig) (message : Option String) (now : Int)
    (s : StoreState) : StoreState :=
  setState id .info (message.getD Defaults.MESSAGES.LOADING)
    (configSpreadOptions cfg baseOptions) now s

/-- Derived view: the visible items other than `excludeId`, in `createdAt`
order — the `visibleItems` list computed inside `enforceMaxVisible`. -/
def visibleOthers (ex : Option String) (s : StoreState) : List NotifyItem :=
  (getNotifications s).filter (fun it => it.visible && !(some it.id == ex))

/-- Number of items `enforceMaxVisible` evicts when at or over capacity. -/
def evictCount (mv : Nat) (ex : Option String) (s : StoreState) : Nat :=
  (visibleOthers ex s).length - mv + 1

/-- The items `enforceMaxVisible` evicts when at or over capacity: the
oldest `evictCount` of the visible items other than `excludeId`. -/
def evicted (mv : Nat) (ex : Option String) (s : StoreState) : List NotifyItem :=
  (visibleOthers ex s).take (evictCount mv ex s)

/-- Count of resident entries that are visible and not `excludeId`. -/
def visiblePairCount (ex : Option String) (s : StoreState) : Nat :=
  (s.notifications.filter (fun p => p.2.visible && !(some p.2.id == ex))).length

/-! ### Concrete execution traces used as witnesses and counterexamples -/

/-- A confirm prompt parked on id `a` (resolver token 0), then `setState`
transitions the same id to `success`. -/
def confirmThenSuccess : StoreState :=
  setState "a" .success "ok" {} 1 (setConfirmState "a" "Sure?" {} 0 0 emptyStore)

/-- A confirm prompt parked on id `a` with resolver token 7. -/
def confirmStore : StoreState := setConfirmState "a" "q" {} 7 0 emptyStore

/-- Item set to `success` with duration 3000 at time 0. -/
def pauseTrace0 : StoreState :=
  setState "a" .success "m" { duration := some 3000 } 0 emptyStore

/-- First pause, at time 1000. -/
def pauseTrace1 : StoreState := pauseTimer "a" 1000 pauseTrace0

/-- First resume, at time 1500. -/
def pauseTrace2 : StoreState := resumeTimer "a" 1500 pauseTrace1

/-- Second pause, at time 2000 (500 un-paused ms after the resume). -/
def pauseTrace3 : StoreState := pauseTimer "a" 2000 pauseTrace2

/-- Second resume, at time 2100. -/
def pauseTrace4 : StoreState := resumeTimer "a" 2100 pauseTrace3

/-- Item set to `success` with the invalid duration `-5` at time 0. -/
def negDurationStore : StoreState :=
  setState "a" .success "m" { duration := some (-5) } 0 emptyStore

/-- The global configuration after `configure({maxVisible: 2})`. -/
def maxVisible2Config : NotifyContainerConfig :=
  { initialGlobalConfig with maxVisible := some 2 }

/-- Facade creation of notification A at time 0 under `maxVisible = 2`. -/
def facadeA : StoreState := notifyWithMessage "A" "A" {} maxVisible2Config 0 emptyStore

/-- Facade creation of notification B at time 1 under `maxVisible = 2`. -/
def facadeB : StoreState := notifyWithMessage "B" "B" {} maxVisible2Config 1 facadeA

/-- Facade creation of notification C at time 2 under `maxVisible = 2`. -/
def facadeC : StoreState := notifyWithMessage "C" "C" {} maxVisible2Config 2 facadeB

/-! ### Association-list and bookkeeping lemmas -/

theorem lookup_mapSet_self (id : String) (item : NotifyItem)
    (l : List (String × NotifyItem)) :
    lookup id (mapSet id item l) = some item := by
  induction l with
  | nil => simp [mapSet, lookup]
  | cons p ps ih =>
    by_cases h : p.1 == id
    · simp [mapSet, lookup, h]
    · simp only [mapSet, h, if_false]
      simpa [lookup, List.find?_cons, h] using ih

theorem lookup_mapSet_ne (id id' : String) (item : NotifyItem)
    (l : List (String × NotifyItem)) (h : ¬(id' = id)) :
    lookup id' (mapSet id item l) = lookup id' l := by
  have hne : (id == id') = false := by
    simp only [beq_eq_false_iff_ne, ne_eq]
    exact fun hc => h hc.symm
  induction l with
  | nil => simp [mapSet, lookup, List.find?, hne]
  | cons p ps ih =>
    by_cases hp : (p.1 == id) = true
    · have hpid : p.1 = id := by simpa using hp
      have hpd : (p.1 == id') = false := by simp [hpid, hne]
      simp [mapSet, lookup, List.find?, hne, hpd, hpid]
    · have hpneg : ¬(p.1 = id) := fun hc => hp (by simp [hc])
      by_cases hpd : (p.1 == id') = true
      · simp [mapSet, lookup, List.find?, hpd, hpneg]
      · have hpd' : (p.1 == id') = false := by
          simpa using hpd
        simp only [mapSet, if_neg hp, lookup, List.find?, hpd'] at ih ⊢
        exact ih

theorem lookup_of_mem_nodup (id : String) (v : NotifyItem)
    (l : List (String × NotifyItem)) (hmem : (id, v) ∈ l)
    (hnd : (l.map (·.1)).Nodup) : lookup id l = some v := by
  induction l with
  | nil => cases hmem
  | cons p ps ih =>
    rcases List.mem_cons.mp hmem with h | h
    · simp [lookup, List.find?_cons, ← h]
    · have hne : (p.1 == id) = false := by
        simp only [beq_eq_false_iff_ne, ne_eq]
        intro hc
        have hmm : p.1 ∈ ps.map (·.1) := by
          rw [hc]
          exact List.mem_map.mpr ⟨(id, v), h, rfl⟩
        exact (List.nodup_cons.mp hnd).1 hmm
      have := ih h (List.nodup_cons.mp hnd).2
      simpa [lookup, List.find?_cons, hne] using this

theorem map_replace_id (id : String) (item : NotifyItem)
    (l : List (String × NotifyItem)) (h : ∀ p ∈ l, ¬(p.1 = id)) :
    l.map (fun p => if p.1 == id then (id, item) else p) = l := by
  induction l with
  | nil => rfl
  | cons p ps ih =>
    have hp : ¬((p.1 == id) = true) := by
      simp only [beq_iff_eq]
      exact h p (List.mem_cons_self p ps)
    simp only [List.map_cons, if_neg hp]
    rw [ih (fun q hq => h q (List.mem_cons_of_mem p hq))]

theorem mapSet_of_lookup_some (id : String) (item : NotifyItem)
    (l : List (String × NotifyItem)) (hl : (lookup id l).isSome)
    (hnd : (l.map (·.1)).Nodup) :
    mapSet id item l = l.map (fun p => if p.1 == id then (id, item) else p) := by
  induction l with
  | nil => simp [lookup] at hl
  | cons p ps ih =>
    by_cases hp : (p.1 == id) = true
    · have hpid : p.1 = id := by simpa using hp
      simp only [mapSet, if_pos hp, List.map_cons]
      rw [map_replace_id]
      intro q hq hqe
      have : p.1 ∈ ps.map (·.1) := by
        rw [hpid, ← hqe]
        exact List.mem_map.mpr ⟨q, hq, rfl⟩
      exact (List.nodup_cons.mp hnd).1 this
    · have hpf : (p.1 == id) = false := by simpa using hp
      have hl' : (lookup id ps).isSome := by
        simp only [lookup, List.find?, hpf] at hl
        exact hl
      simp only [mapSet, if_neg hp, List.map_cons, if_neg hp]
      rw [ih hl' (List.nodup_cons.mp hnd).2]

theorem keys_mapSet_of_lookup_some (id : String) (item : NotifyItem)
    (l : List (String × NotifyItem)) (hl : (lookup id l).isSome)
    (hnd : (l.map (·.1)).Nodup) :
    (mapSet id item l).map (·.1) = l.map (·.1) := by
  rw [mapSet_of_lookup_some id item l hl hnd, List.map_map]
  refine List.map_congr_left ?_
  intro p _
  by_cases hp : p.1 == id
  · have : p.1 = id := by simpa using hp
    simp [Function.comp, hp, this]
  · simp [Function.comp, hp]

/-! ### Field-stability lemmas for the small state transformers -/

@[simp] theorem notifications_logEvent (e : Event) (s : StoreState) :
    (logEvent e s).notifications = s.notifications := rfl

@[simp] theorem notifications_logIf (b : Bool) (e : Event) (s : StoreState) :
    (logIf b e s).notifications = s.notifications := by
  cases b <;> rfl

@[simp] theorem notifications_emit (s : StoreState) :
    (emit s).notifications = s.notifications := rfl

@[simp] theorem notifications_clearDismissTimeout (id : String) (s : StoreState) :
    (clearDismissTimeout id s).notifications = s.notifications := rfl

@[simp] theorem notifications_setupAutoDismiss (id : String) (d now : Int)
    (s : StoreState) :
    (setupAutoDismiss id d now s).notifications = s.notifications := rfl

@[simp] theorem dismissTimeouts_logEvent (e : Event) (s : StoreState) :
    (logEvent e s).dismissTimeouts = s.dismissTimeouts := rfl

@[simp] theorem dismissTimeouts_logIf (b : Bool) (e : Event) (s : StoreState) :
    (logIf b e s).dismissTimeouts = s.dismissTimeouts := by
  cases b <;> rfl

@[simp] theorem dismissTimeouts_emit (s : StoreState) :
    (emit s).dismissTimeouts = s.dismissTimeouts := rfl

@[simp] theorem pendingRemovals_logEvent (e : Event) (s : StoreState) :
    (logEvent e s).pendingRemovals = s.pendingRemovals := rfl

@[simp] theorem pendingRemovals_logIf (b : Bool) (e : Event) (s : StoreState) :
    (logIf b e s).pendingRemovals = s.pendingRemovals := by
  cases b <;> rfl

@[simp] theorem pendingRemovals_emit (s : StoreState) :
    (emit s).pendingRemovals = s.pendingRemovals := rfl

@[simp] theorem pendingRemovals_clearDismissTimeout (id : String) (s : StoreState) :
    (clearDismissTimeout id s).pendingRemovals = s.pendingRemovals := rfl

@[simp] theorem pendingRemovals_setupAutoDismiss (id : String) (d now : Int)
    (s : StoreState) :
    (setupAutoDismiss id d now s).pendingRemovals = s.pendingRemovals := rfl

@[simp] theorem events_clearDismissTimeout (id : String) (s : StoreState) :
    (clearDismissTimeout id s).events = s.events := rfl

@[simp] theorem events_setupAutoDismiss (id : String) (d now : Int) (s : StoreState) :
    (setupAutoDismiss id d now s).events = s.events := rfl

@[simp] theorem events_logEvent (e : Event) (s : StoreState) :
    (logEvent e s).events = s.events ++ [e] := rfl

@[simp] theorem events_emit (s : StoreState) :
    (emit s).events = s.events ++ [Event.emit] := rfl

@[simp] theorem getNotification_clearDismissTimeout (id id' : String) (s : StoreState) :
    getNotification id (clearDismissTimeout id' s) = getNotification id s := rfl

@[simp] theorem timeoutFor_clearDismissTimeout_self (id : String) (s : StoreState) :
    timeoutFor id (clearDismissTimeout id s) = none := by
  have hf : (s.dismissTimeouts.filter (fun p => ¬(p.1 == id))).find?
      (fun p => p.1 == id) = none := by
    rw [List.find?_eq_none]
    intro p hp
    have := (List.mem_filter.mp hp).2
    simpa using this
  simp [timeoutFor, clearDismissTimeout, hf]

@[simp] theorem timeoutFor_setupAutoDismiss_self (id : String) (d now : Int)
    (s : StoreState) :
    timeoutFor id (setupAutoDismiss id d now s) = some (now + d) := by
  simp only [timeoutFor, setupAutoDismiss, clearDismissTimeout]
  rw [List.find?_append]
  have : (s.dismissTimeouts.filter (fun p => ¬(p.1 == id))).find?
      (fun p => p.1 == id) = none := by
    rw [List.find?_eq_none]
    intro p hp
    have := (List.mem_filter.mp hp).2
    simpa using this
  simp [this]

/-! ### Characterization lemmas for the store operations -/

@[simp] theorem notifications_ite (c : Prop) [Decidable c] (a b : StoreState) :
    (if c then a else b).notifications = if c then a.notifications else b.notifications := by
  split <;> rfl

@[simp] theorem timeoutFor_emit (id : String) (s : StoreState) :
    timeoutFor id (emit s) = timeoutFor id s := rfl

@[simp] theorem timeoutFor_logIf (id : String) (b : Bool) (e : Event) (s : StoreState) :
    timeoutFor id (logIf b e s) = timeoutFor id s := by
  cases b <;> rfl

@[simp] theorem timeoutFor_update_notifications (id : String) (s : StoreState)
    (l : List (String × NotifyItem)) :
    timeoutFor id { s with notifications := l } = timeoutFor id s := rfl

@[simp] theorem timeoutFor_mk (id : String) (n : List (String × NotifyItem))
    (t : List (String × Int)) (p : List (String × Int × NotifyItem)) (e : List Event) :
    timeoutFor id ⟨n, t, p, e⟩ = (t.find? (fun q => q.1 == id)).map (·.2) := rfl

@[simp] theorem getNotification_mk (id : String) (n : List (String × NotifyItem))
    (t : List (String × Int)) (p : List (String × Int × NotifyItem)) (e : List Event) :
    getNotification id ⟨n, t, p, e⟩ = lookup id n := rfl

@[simp] theorem dismissTimeouts_clearDismissTimeout (id : String) (s : StoreState) :
    (clearDismissTimeout id s).dismissTimeouts
      = s.dismissTimeouts.filter (fun p => ¬(p.1 == id)) := rfl

@[simp] theorem find?_key_filter_ne (id : String) (l : List (String × Int)) :
    (l.filter (fun p => ¬(p.1 == id))).find? (fun p => p.1 == id) = none := by
  rw [List.find?_eq_none]
  intro p hp
  have := (List.mem_filter.mp hp).2
  simpa using this

@[simp] theorem getNotification_emit (id : String) (s : StoreState) :
    getNotification id (emit s) = getNotification id s := rfl

@[simp] theorem getNotification_logIf (id : String) (b : Bool) (e : Event)
    (s : StoreState) :
    getNotification id (logIf b e s) = getNotification id s := by
  cases b <;> rfl

@[simp] theorem getNotification_update_notifications (id : String) (s : StoreState)
    (l : List (String × NotifyItem)) :
    getNotification id { s with notifications := l } = lookup id l := rfl

theorem setState_notifications (id : String) (st : NotifyState) (m : String)
    (o : NotifyOptions) (now : Int) (s : StoreState) :
    (setState id st m o now s).notifications
      = mapSet id
          (setStateItem id st m
            (mergeOptions (((getNotification id s).map (·.options)).getD {}) o)
            (getNotification id s)
            (((getNotification id s).map (·.state)).getD .idle) now)
          s.notifications := by
  simp [setState]

theorem getNotification_setState_self (id : String) (st : NotifyState) (m : String)
    (o : NotifyOptions) (now : Int) (s : StoreState) :
    getNotification id (setState id st m o now s)
      = some (setStateItem id st m
          (mergeOptions (((getNotification id s).map (·.options)).getD {}) o)
          (getNotification id s)
          (((getNotification id s).map (·.state)).getD .idle) now) := by
  rw [getNotification, setState_notifications, lookup_mapSet_self]

theorem timeoutFor_setState_self (id : String) (st : NotifyState) (m : String)
    (o : NotifyOptions) (now : Int) (s : StoreState) :
    timeoutFor id (setState id st m o now s)
      = if (shouldAutoDismiss st
            && (mergeOptions (((getNotification id s).map (·.options)).getD {}) o).duration
                != some 0) = true
        then some (now
          + ((mergeOptions (((getNotification id s).map (·.options)).getD {}) o).duration.getD
              Defaults.DURATION_MS))
        else none := by
  simp only [setState, getNotification_clearDismissTimeout]
  split
  · simp
  · simp

theorem setConfirmState_notifications (id : String) (m : String) (o : NotifyOptions)
    (rid : Nat) (now : Int) (s : StoreState) :
    (setConfirmState id m o rid now s).notifications
      = mapSet id
          (confirmItem id m
            (match getNotification id s with
             | some ex => mergeOptions ex.options o
             | none => o)
            rid (getNotification id s)
            (((getNotification id s).map (·.state)).getD .idle) now)
          s.notifications := by
  cases hres : getNotification id s <;>
    simp [setConfirmState, confirmItem, hres]

theorem getNotification_setConfirmState_self (id : String) (m : String)
    (o : NotifyOptions) (rid : Nat) (now : Int) (s : StoreState) :
    getNotification id (setConfirmState id m o rid now s)
      = some (confirmItem id m
          (match getNotification id s with
           | some ex => mergeOptions ex.options o
           | none => o)
          rid (getNotification id s)
          (((getNotification id s).map (·.state)).getD .idle) now) := by
  rw [getNotification, setConfirmState_notifications, lookup_mapSet_self]

theorem resolveConfirm_eq (id : String) (c : Bool) (s : StoreState) (item : NotifyItem)
    (rid : Nat) (h1 : getNotification id s = some item)
    (h2 : item.confirmResolver = some rid) :
    resolveConfirm id c s
      = { s with
          notifications := mapSet id { item with confirmResolver := none } s.notifications,
          events := s.events ++ [Event.resolverCall rid c] } := by
  simp [resolveConfirm, h1, h2, logEvent]

theorem resolveConfirm_of_no_resolver (id : String) (c : Bool) (s : StoreState)
    (item : NotifyItem) (h1 : getNotification id s = some item)
    (h2 : item.confirmResolver = none) :
    resolveConfirm id c s = s := by
  simp [resolveConfirm, h1, h2]

theorem resolveConfirm_unknown (id : String) (c : Bool) (s : StoreState)
    (h1 : getNotification id s = none) :
    resolveConfirm id c s = s := by
  simp [resolveConfirm, h1]

theorem pauseTimer_eq (id : String) (now : Int) (s : StoreState) (item : NotifyItem)
    (ft : Int) (h1 : getNotification id s = some item) (h2 : item.paused = false)
    (h3 : timeoutFor id s = some ft) :
    pauseTimer id now s
      = { s with
          dismissTimeouts := s.dismissTimeouts.filter (fun p => ¬(p.1 == id)),
          notifications := mapSet id
            { item with
              paused := true,
              remainingTime := some (max 0
                ((item.options.duration.getD Defaults.DURATION_MS)
                  - (now - item.stateStartedAt))) }
            s.notifications,
          events := s.events ++ [Event.emit] } := by
  simp [pauseTimer, h1, h2, h3, emit, logEvent, clearDismissTimeout]

theorem pauseTimer_no_timer (id : String) (now : Int) (s : StoreState)
    (item : NotifyItem) (h1 : getNotification id s = some item)
    (h3 : timeoutFor id s = none) :
    pauseTimer id now s = s := by
  cases h2 : item.paused <;> simp [pauseTimer, h1, h2, h3]

theorem pauseTimer_paused (id : String) (now : Int) (s : StoreState)
    (item : NotifyItem) (h1 : getNotification id s = some item)
    (h2 : item.paused = true) :
    pauseTimer id now s = s := by
  simp [pauseTimer, h1, h2]

theorem resumeTimer_eq_auto (id : String) (now : Int) (s : StoreState)
    (item : NotifyItem) (h1 : getNotification id s = some item)
    (h2 : item.paused = true) (h3 : shouldAutoDismiss item.state = true) :
    resumeTimer id now s
      = { s with
          notifications := mapSet id
            { item with paused := false, remainingTime := none, stateStartedAt := now }
            s.notifications,
          dismissTimeouts := s.dismissTimeouts.filter (fun p => ¬(p.1 == id))
            ++ [(id, now + item.remainingTime.getD Defaults.DURATION_MS)],
          events := s.events ++ [Event.emit] } := by
  simp [resumeTimer, h1, h2, h3, emit, logEvent, setupAutoDismiss, clearDismissTimeout]

theorem resumeTimer_not_paused (id : String) (now : Int) (s : StoreState)
    (item : NotifyItem) (h1 : getNotification id s = some item)
    (h2 : item.paused = false) :
    resumeTimer id now s = s := by
  simp [resumeTimer, h1, h2]

theorem dismiss_eq (id : String) (reason : DismissReason) (now : Int) (s : StoreState)
    (item : NotifyItem) (h1 : getNotification id s = some item) :
    dismiss id reason now s
      = { s with
          events := s.events ++ dismissEvents id reason item,
          dismissTimeouts := s.dismissTimeouts.filter (fun p => ¬(p.1 == id)),
          notifications := mapSet id (dismissedItem item) s.notifications,
          pendingRemovals := s.pendingRemovals ++ [(id, now + GRACE_MS, item)] } := by
  cases hr : item.confirmResolver <;> cases hd : item.options.onDismiss <;>
    simp [dismiss, h1, hr, hd, dismissEvents, emit, logEvent, logIf,
      clearDismissTimeout]

theorem dismiss_unknown (id : String) (reason : DismissReason) (now : Int)
    (s : StoreState) (h1 : getNotification id s = none) :
    dismiss id reason now s = s := by
  simp [dismiss, h1]

/-! ### Sorting lemmas for getNotifications -/

theorem insertByCreatedAt_perm (x : NotifyItem) (l : List NotifyItem) :
    List.Perm (insertByCreatedAt x l) (x :: l) := by
  induction l with
  | nil => exact List.Perm.refl _
  | cons y ys ih =>
    by_cases hle : y.createdAt ≤ x.createdAt
    · simp only [insertByCreatedAt, if_pos hle]
      exact (ih.cons y).trans (List.Perm.swap x y ys)
    · simp only [insertByCreatedAt, if_neg hle]
      exact List.Perm.refl _

theorem sortByCreatedAt_perm (l : List NotifyItem) :
    List.Perm (sortByCreatedAt l) l := by
  suffices h : ∀ acc : List NotifyItem,
      List.Perm (l.foldl (fun a x => insertByCreatedAt x a) acc) (acc ++ l) by
    simpa [sortByCreatedAt] using h []
  induction l with
  | nil => intro acc; simp
  | cons x xs ih =>
    intro acc
    have h1 := ih (insertByCreatedAt x acc)
    have h2 : List.Perm (insertByCreatedAt x acc ++ xs) ((x :: acc) ++ xs) :=
      (insertByCreatedAt_perm x acc).append_right xs
    have h3 : List.Perm ((x :: acc) ++ xs) (acc ++ x :: xs) := by
      simpa using List.perm_middle.symm
    exact (h1.trans h2).trans h3

theorem insertByCreatedAt_pairwise (x : NotifyItem) (l : List NotifyItem)
    (h : l.Pairwise (fun a b => a.createdAt ≤ b.createdAt)) :
    (insertByCreatedAt x l).Pairwise (fun a b => a.createdAt ≤ b.createdAt) := by
  induction l with
  | nil => simp [insertByCreatedAt]
  | cons y ys ih =>
    rcases List.pairwise_cons.mp h with ⟨hy, hys⟩
    by_cases hle : y.createdAt ≤ x.createdAt
    · simp only [insertByCreatedAt, if_pos hle]
      refine List.pairwise_cons.mpr ⟨?_, ih hys⟩
      intro z hz
      have hz' := (insertByCreatedAt_perm x ys).mem_iff.mp hz
      rcases List.mem_cons.mp hz' with rfl | hzys
      · exact hle
      · exact hy z hzys
    · push_neg at hle
      simp only [insertByCreatedAt, if_neg (not_le.mpr hle)]
      refine List.pairwise_cons.mpr ⟨?_, h⟩
      intro z hz
      rcases List.mem_cons.mp hz with rfl | hzys
      · exact le_of_lt hle
      · exact le_trans (le_of_lt hle) (hy z hzys)

theorem sortByCreatedAt_pairwise (l : List NotifyItem) :
    (sortByCreatedAt l).Pairwise (fun a b => a.createdAt ≤ b.createdAt) := by
  suffices h : ∀ acc : List NotifyItem,
      acc.Pairwise (fun a b => a.createdAt ≤ b.createdAt) →
      (l.foldl (fun a x => insertByCreatedAt x a) acc).Pairwise
        (fun a b => a.createdAt ≤ b.createdAt) from h [] (by simp)
  induction l with
  | nil => intro acc h; simpa using h
  | cons x xs ih =>
    intro acc h
    exact ih _ (insertByCreatedAt_pairwise x acc h)

theorem getNotifications_perm (s : StoreState) :
    List.Perm (getNotifications s) (s.notifications.map (·.2)) :=
  sortByCreatedAt_perm _

theorem getNotifications_pairwise (s : StoreState) :
    (getNotifications s).Pairwise (fun a b => a.createdAt ≤ b.createdAt) :=
  sortByCreatedAt_pairwise _

/-! ### Claim C1 -/

/-- C1 counterexample: starting from a confirm prompt on id `a` (resolver
token 0), a `setState` to `success` leaves the item with `state = success`
and a still-attached resolver, so `confirmResolver` is non-null while the
state is not `confirm` — the claimed biconditional invariant fails after
`setState` transitions an item out of the confirm state. -/
theorem c1_resolver_iff_state_counterexample :
    (getNotification "a" confirmThenSuccess).map (·.state) = some NotifyState.success
  ∧ (getNotification "a" confirmThenSuccess).map (·.confirmResolver) = some (some 0)
  ∧ NotifyState.success ≠ NotifyState.confirm := by
  exact ⟨by decide, by decide, by decide⟩

/-- C1 amended: `setConfirmState` establishes `state = confirm` with the
given resolver attached, and `resolveConfirm` always leaves the item's
resolver slot null; but `setState` carries the existing resolver over
verbatim (`confirmResolver: existing?.confirmResolver ?? null`), so an
item transitioned out of `confirm` by `setState` keeps its non-null
resolver and the biconditional `confirmResolver ≠ null ↔ state = confirm`
does not hold across `setState`. -/
theorem c1_resolver_iff_state_amended (id m m2 : String) (o o2 : NotifyOptions)
    (rid : Nat) (now now2 : Int) (s : StoreState) (st : NotifyState) (c : Bool) :
    ((getNotification id (setConfirmState id m o rid now s)).map
        (fun it => (it.state, it.confirmResolver))
      = some (NotifyState.confirm, some rid))
  ∧ (getNotification id (resolveConfirm id c s)
      = (getNotification id s).map (fun it => { it with confirmResolver := none }))
  ∧ ((getNotification id (setState id st m2 o2 now2 s)).map (·.confirmResolver)
      = some (((getNotification id s).map (·.confirmResolver)).getD none)) := by
  refine ⟨?_, ?_, ?_⟩
  · rw [getNotification_setConfirmState_self]
    simp [confirmItem]
  · cases hres : getNotification id s with
    | none => rw [resolveConfirm_unknown id c s hres, hres]; rfl
    | some item =>
      cases hr : item.confirmResolver with
      | none =>
        rw [resolveConfirm_of_no_resolver id c s item hres hr, hres]
        cases item
        simp_all
      | some rid2 =>
        rw [resolveConfirm_eq id c s item rid2 hres hr]
        simp [hres, lookup_mapSet_self]
  · rw [getNotification_setState_self]
    simp [setStateItem]

/-! ### Claim C3 -/

/-- C3: when a resolver is pending on `id`, `resolveConfirm(id, true)`
followed by `resolveConfirm(id, false)` invokes the resolver exactly once,
with `true`: the first call detaches the resolver (stores null) before
invoking it, so the second call is a strict no-op on the store state. -/
theorem c3_resolveConfirm_idempotent (s : StoreState) (id : String)
    (item : NotifyItem) (rid : Nat) (h1 : getNotification id s = some item)
    (h2 : item.confirmResolver = some rid) :
    resolveConfirm id false (resolveConfirm id true s) = resolveConfirm id true s
  ∧ (resolveConfirm id true s).events = s.events ++ [Event.resolverCall rid true]
  ∧ getNotification id (resolveConfirm id true s)
      = some { item with confirmResolver := none } := by
  have heq := resolveConfirm_eq id true s item rid h1 h2
  have hres1 : getNotification id (resolveConfirm id true s)
      = some { item with confirmResolver := none } := by
    rw [heq]
    simp [lookup_mapSet_self]
  refine ⟨?_, by rw [heq], hres1⟩
  exact resolveConfirm_of_no_resolver id false _ _ hres1 rfl

/-- C3 witness: the concrete confirm store with resolver token 7. -/
theorem c3_resolveConfirm_idempotent_witness :
    (getNotification "a" confirmStore
        = some { id := "a", state := NotifyState.confirm, message := "q",
                 options := {}, visible := true, prevState := NotifyState.idle,
                 confirmResolver := some 7, createdAt := 0, stateStartedAt := 0,
                 paused := false, remainingTime := none })
  ∧ (resolveConfirm "a" false (resolveConfirm "a" true confirmStore)
        = resolveConfirm "a" true confirmStore
    ∧ (resolveConfirm "a" true confirmStore).events
        = confirmStore.events ++ [Event.resolverCall 7 true]
    ∧ getNotification "a" (resolveConfirm "a" true confirmStore)
        = some { id := "a", state := NotifyState.confirm, message := "q",
                 options := {}, visible := true, prevState := NotifyState.idle,
                 confirmResolver := none, createdAt := 0, stateStartedAt := 0,
                 paused := false, remainingTime := none }) := by
  refine ⟨by decide, ?_⟩
  exact c3_resolveConfirm_idempotent confirmStore "a"
    { id := "a", state := NotifyState.confirm, message := "q", options := {},
      visible := true, prevState := NotifyState.idle, confirmResolver := some 7,
      createdAt := 0, stateStartedAt := 0, paused := false, remainingTime := none }
    7 (by decide) (by decide)

/-! ### Claim C6 -/

/-- C6: the first `setState` on an id creates the item with
`createdAt = stateStartedAt = now`; on a resident id neither `setState`
nor `setConfirmState` ever changes `createdAt`, while `stateStartedAt` is
set to the current time exactly when the new state differs from the
current one and is kept unchanged when `setState` repeats the current
state. -/
theorem c6_createdAt_immutable (s s2 : StoreState) (id id2 : String)
    (item2 : NotifyItem) (st st2 : NotifyState) (m m2 m3 : String)
    (o o2 o3 : NotifyOptions) (rid : Nat) (now now2 now3 : Int)
    (hfresh : getNotification id s = none)
    (hres : getNotification id2 s2 = some item2)
    (hch : st2 ≠ item2.state) :
    ((getNotification id (setState id st m o now s)).map
        (fun it => (it.createdAt, it.stateStartedAt)) = some (now, now))
  ∧ ((getNotification id2 (setState id2 st2 m2 o2 now2 s2)).map
        (fun it => (it.createdAt, it.stateStartedAt)) = some (item2.createdAt, now2))
  ∧ ((getNotification id2 (setState id2 item2.state m2 o2 now2 s2)).map
        (fun it => (it.createdAt, it.stateStartedAt))
      = some (item2.createdAt, item2.stateStartedAt))
  ∧ ((getNotification id2 (setConfirmState id2 m3 o3 rid now3 s2)).map (·.createdAt)
      = some item2.createdAt) := by
  refine ⟨?_, ?_, ?_, ?_⟩
  · rw [getNotification_setState_self]
    simp [setStateItem, hfresh]
  · rw [getNotification_setState_self]
    simp [setStateItem, hres, hch]
  · rw [getNotification_setState_self]
    simp [setStateItem, hres]
  · rw [getNotification_setConfirmState_self]
    simp [confirmItem, hres]

/-- C6 witness: id `x` is fresh in the empty store; id `a` is resident in
`pauseTrace0` with state `success`, and `error` differs from it. -/
theorem c6_createdAt_immutable_witness :
    (getNotification "x" emptyStore = none)
  ∧ (getNotification "a" pauseTrace0
      = some { id := "a", state := NotifyState.success, message := "m",
               options := { duration := some 3000 }, visible := true,
               prevState := NotifyState.idle, confirmResolver := none,
               createdAt := 0, stateStartedAt := 0, paused := false,
               remainingTime := none })
  ∧ (((getNotification "x" (setState "x" NotifyState.info "hi" {} 42 emptyStore)).map
        (fun it => (it.createdAt, it.stateStartedAt)) = some (42, 42))
    ∧ ((getNotification "a" (setState "a" NotifyState.error "e" {} 50 pauseTrace0)).map
        (fun it => (it.createdAt, it.stateStartedAt)) = some (0, 50))
    ∧ ((getNotification "a" (setState "a" NotifyState.success "e" {} 50 pauseTrace0)).map
        (fun it => (it.createdAt, it.stateStartedAt)) = some (0, 0))
    ∧ ((getNotification "a" (setConfirmState "a" "c" {} 3 60 pauseTrace0)).map
        (·.createdAt) = some 0)) := by
  refine ⟨by decide, by decide, ?_⟩
  have h := c6_createdAt_immutable emptyStore pauseTrace0 "x" "a"
    { id := "a", state := NotifyState.success, message := "m",
      options := { duration := some 3000 }, visible := true,
      prevState := NotifyState.idle, confirmResolver := none,
      createdAt := 0, stateStartedAt := 0, paused := false,
      remainingTime := none }
    NotifyState.info NotifyState.error "hi" "e" "c" {} {} {} 3 42 50 60
    (by decide) (by decide) (by decide)
  exact h

/-! ### Claim C7 -/

/-- C7 counterexample: `setState` with the negative duration `-5` arms the
auto-dismiss timer with the supplied `-5` (absolute fire time `0 + (-5)`),
not with the default `Defaults.DURATION_MS`: the store performs no
defensive guarding of negative durations. -/
theorem c7_negative_duration_counterexample :
    timeoutFor "a" negDurationStore = some (-5)
  ∧ some (-5 : Int) ≠ some ((0 : Int) + Defaults.DURATION_MS) := by
  exact ⟨by decide, by decide⟩

/-- C7 amended: the store passes any supplied non-zero duration through to
the timer unchanged — negative values included — and only an absent
(`null`/`undefined`) duration falls back to `Defaults.DURATION_MS`.  No
operation throws (all embedded operations are total). -/
theorem c7_duration_passthrough (id : String) (st : NotifyState) (m : String)
    (o o2 : NotifyOptions) (d now : Int) (s : StoreState)
    (hfresh : getNotification id s = none)
    (hsd : shouldAutoDismiss st = true)
    (hod : o.duration = some d) (hd : d ≠ 0)
    (hod2 : o2.duration = none) :
    timeoutFor id (setState id st m o now s) = some (now + d)
  ∧ timeoutFor id (setState id st m o2 now s) = some (now + Defaults.DURATION_MS) := by
  constructor
  · rw [timeoutFor_setState_self]
    simp [hfresh, hsd, mergeOptions, hod, hd]
  · rw [timeoutFor_setState_self]
    simp [hfresh, hsd, mergeOptions, hod2]

/-- C7 witness: duration `-5` arms the timer for `0 + (-5)`; an absent
duration arms it for the 3000 ms default. -/
theorem c7_duration_passthrough_witness :
    (getNotification "a" emptyStore = none)
  ∧ (shouldAutoDismiss NotifyState.success = true)
  ∧ (timeoutFor "a" (setState "a" NotifyState.success "m"
        { duration := some (-5) } 0 emptyStore) = some (0 + (-5))
    ∧ timeoutFor "a" (setState "a" NotifyState.success "m" {} 0 emptyStore)
        = some (0 + Defaults.DURATION_MS)) := by
  refine ⟨by decide, by decide, ?_⟩
  exact c7_duration_passthrough "a" NotifyState.success "m"
    { duration := some (-5) } {} (-5) 0 emptyStore (by decide) rfl rfl
    (by decide) rfl

/-! ### Claim C9 -/

/-- C9: every `setState` call — any target state (auto-dismissing or not),
any options, state change or not — stores the item with `paused = false`
and `remainingTime = null`, so a `setState` on a currently paused item
always discards its saved remaining time; and whenever the new state
auto-dismisses with merged duration ≠ 0, a fresh timer is armed for the
full merged duration, not for the previously saved remaining time. -/
theorem c9_setState_resets_pause (id : String) (st : NotifyState) (m : String)
    (o : NotifyOptions) (now : Int) (s : StoreState) :
    ((getNotification id (setState id st m o now s)).map
        (fun it => (it.paused, it.remainingTime)) = some (false, none))
  ∧ (shouldAutoDismiss st = true →
      (mergeOptions (((getNotification id s).map (·.options)).getD {}) o).duration
          ≠ some 0 →
      timeoutFor id (setState id st m o now s)
        = some (now
            + (mergeOptions
                (((getNotification id s).map (·.options)).getD {}) o).duration.getD
                Defaults.DURATION_MS)) := by
  constructor
  · rw [getNotification_setState_self]
    simp [setStateItem]
  · intro hsd hd
    rw [timeoutFor_setState_self]
    simp [hsd, hd]

/-- C9 witness: `pauseTrace1` holds id `a` paused with saved remaining time
2000.  A `setState` back to `success` at time 1600 clears the pause
bookkeeping and arms a full 3000 ms timer (fire time 4600), not a 2000 ms
one; `setState` calls to the non-auto-dismissing `loading` state and with
duration `0` clear the pause bookkeeping just the same. -/
theorem c9_setState_resets_pause_witness :
    ((getNotification "a" pauseTrace1).map (fun it => (it.paused, it.remainingTime))
        = some (true, some 2000))
  ∧ ((getNotification "a" (setState "a" NotifyState.success "m2"
        { duration := some 3000 } 1600 pauseTrace1)).map
          (fun it => (it.paused, it.remainingTime)) = some (false, none))
  ∧ ((getNotification "a" (setState "a" NotifyState.loading "m3" {} 1600
        pauseTrace1)).map (fun it => (it.paused, it.remainingTime))
      = some (false, none))
  ∧ ((getNotification "a" (setState "a" NotifyState.success "m4"
        { duration := some 0 } 1600 pauseTrace1)).map
          (fun it => (it.paused, it.remainingTime)) = some (false, none))
  ∧ timeoutFor "a" (setState "a" NotifyState.success "m2"
        { duration := some 3000 } 1600 pauseTrace1)
      = some (1600
          + (mergeOptions
              (((getNotification "a" pauseTrace1).map (·.options)).getD {})
              { duration := some 3000 }).duration.getD Defaults.DURATION_MS)
  ∧ (1600
      + (mergeOptions (((getNotification "a" pauseTrace1).map (·.options)).getD {})
          { duration := some 3000 }).duration.getD Defaults.DURATION_MS : Int)
      = 4600 := by
  refine ⟨by decide,
    (c9_setState_resets_pause "a" NotifyState.success "m2" { duration := some 3000 }
      1600 pauseTrace1).1,
    (c9_setState_resets_pause "a" NotifyState.loading "m3" {} 1600 pauseTrace1).1,
    (c9_setState_resets_pause "a" NotifyState.success "m4" { duration := some 0 }
      1600 pauseTrace1).1,
    (c9_setState_resets_pause "a" NotifyState.success "m2" { duration := some 3000 }
      1600 pauseTrace1).2 rfl (by decide),
    by decide⟩

/-! ### Claim C10 -/

/-- C10: both the facade `notify.info` and an instance's `.info` method
store `Defaults.MESSAGES.LOADING` (`"Loading..."`) as the message when the
message argument is omitted — the loading default, not an info-specific
one. -/
theorem c10_info_defaults_to_loading_message (id : String)
    (o baseO : NotifyOptions) (cfg : NotifyContainerConfig) (now : Int)
    (s : StoreState) :
    ((getNotification id (notifyInfo id none o cfg now s)).map (·.message)
        = some Defaults.MESSAGES.LOADING)
  ∧ ((getNotification id (instanceInfo id baseO cfg none now s)).map (·.message)
        = some Defaults.MESSAGES.LOADING) := by
  constructor
  · simp only [notifyInfo]
    rw [getNotification_setState_self]
    simp [setStateItem]
  · simp only [instanceInfo]
    rw [getNotification_setState_self]
    simp [setStateItem]

/-! ### Claim C2 -/

@[simp] theorem find?_key_filter_append (id : String) (v : Int)
    (l : List (String × Int)) :
    ((l.filter (fun p => ¬(p.1 == id))) ++ [(id, v)]).find? (fun p => p.1 == id)
      = some (id, v) := by
  rw [List.find?_append]
  simp

/-- C2 amended: for a single pause/resume cycle starting from the state
change that armed the timer, the semantics is as claimed: pausing at time
`tp` saves `remainingTime = D - (tp - t0)` and resuming at `tr` re-arms
the timer to fire at `tr + (D - (tp - t0))`, so the total un-paused
elapsed time is exactly `D`.  However `pauseTimer` always recomputes the
remaining time as `duration - (now - stateStartedAt)` from the full
configured duration and the time of the last state change or resume, so
from the second pause/resume cycle on the saved remaining time is too
large and the total un-paused elapsed time before dismissal can exceed
`D` (see the counterexample). -/
theorem c2_pause_resume_single_cycle (s : StoreState) (id : String)
    (item : NotifyItem) (D t0 tp tr ft : Int)
    (h1 : getNotification id s = some item) (h2 : item.paused = false)
    (h3 : timeoutFor id s = some ft) (h4 : item.options.duration = some D)
    (h5 : item.stateStartedAt = t0) (h6 : shouldAutoDismiss item.state = true)
    (h7 : t0 ≤ tp) (h8 : tp ≤ t0 + D) :
    ((getNotification id (pauseTimer id tp s)).map (·.remainingTime)
        = some (some (D - (tp - t0))))
  ∧ timeoutFor id (resumeTimer id tr (pauseTimer id tp s))
      = some (tr + (D - (tp - t0))) := by
  have hmax : max 0 ((item.options.duration.getD Defaults.DURATION_MS)
      - (tp - item.stateStartedAt)) = D - (tp - t0) := by
    rw [h4, h5]
    simp only [Option.getD_some]
    omega
  have hp := pauseTimer_eq id tp s item ft h1 h2 h3
  have hres1 : getNotification id (pauseTimer id tp s)
      = some { item with paused := true, remainingTime := some (D - (tp - t0)) } := by
    rw [hp]
    simp [lookup_mapSet_self, hmax]
  constructor
  · simp [hres1]
  · rw [resumeTimer_eq_auto id tr (pauseTimer id tp s)
      { item with paused := true, remainingTime := some (D - (tp - t0)) }
      hres1 rfl (by simpa using h6)]
    simp [timeoutFor]

/-- C2 witness: duration 3000 armed at time 0, paused at 1000 (remaining
2000), resumed at 1500: the timer fires at 3500, i.e. 2000 ms of un-paused
time after the resume, for a total un-paused elapsed time of 3000. -/
theorem c2_pause_resume_single_cycle_witness :
    (getNotification "a" pauseTrace0
        = some { id := "a", state := NotifyState.success, message := "m",
                 options := { duration := some 3000 }, visible := true,
                 prevState := NotifyState.idle, confirmResolver := none,
                 createdAt := 0, stateStartedAt := 0, paused := false,
                 remainingTime := none })
  ∧ (timeoutFor "a" pauseTrace0 = some 3000)
  ∧ (((getNotification "a" (pauseTimer "a" 1000 pauseTrace0)).map (·.remainingTime)
        = some (some (3000 - (1000 - 0))))
    ∧ timeoutFor "a" (resumeTimer "a" 1500 (pauseTimer "a" 1000 pauseTrace0))
        = some (1500 + (3000 - (1000 - 0)))) := by
  refine ⟨by decide, by decide, ?_⟩
  exact c2_pause_resume_single_cycle pauseTrace0 "a"
    { id := "a", state := NotifyState.success, message := "m",
      options := { duration := some 3000 }, visible := true,
      prevState := NotifyState.idle, confirmResolver := none,
      createdAt := 0, stateStartedAt := 0, paused := false, remainingTime := none }
    3000 0 1000 1500 3000 (by decide) rfl (by decide) rfl rfl rfl
    (by decide) (by decide)

/-- C2 counterexample: two pause/resume cycles on a 3000 ms timer.  At the
second pause (2000, i.e. total un-paused elapsed time 1500) the saved
remaining time is 2500, not `3000 - 1500 = 1500`, because `pauseTimer`
recomputes it from the full duration and the time of the last resume; the
final timer fires at 4600, i.e. 2500 ms after the second resume at 2100,
for a total un-paused elapsed time of 1000 + 500 + 2500 = 4000 ≠ 3000. -/
theorem c2_multi_cycle_counterexample :
    (getNotification "a" pauseTrace3).map (·.remainingTime) = some (some 2500)
  ∧ some (some (2500 : Int)) ≠ some (some ((3000 : Int) - 1500))
  ∧ timeoutFor "a" pauseTrace4 = some 4600
  ∧ ((4600 : Int) - 2100) ≠ (3000 : Int) - 1500 := by
  exact ⟨by decide, by decide, by decide, by decide⟩

/-! ### Claim C4 -/

theorem resolverCalls_append (a b : List Event) :
    resolverCalls (a ++ b) = resolverCalls a ++ resolverCalls b := by
  simp [resolverCalls]

theorem resolverCalls_dismissEvents (id : String) (reason : DismissReason)
    (item : NotifyItem) :
    resolverCalls (dismissEvents id reason item)
      = match item.confirmResolver with
        | some rid => [(rid, false)]
        | none => [] := by
  cases hr : item.confirmResolver <;> cases hd : item.options.onDismiss <;>
    simp [dismissEvents, resolverCalls, hr, hd]

/-- C4: dismissing an item that carries a pending confirm resolver invokes
that resolver exactly once, with `false`, and clears the resolver slot
(while marking the item invisible); afterwards neither `resolveConfirm`
nor a further `dismiss` on the same id can invoke it again, and `dismiss`
on an unknown id is a strict no-op. -/
theorem c4_dismiss_force_resolves (s : StoreState) (id id0 : String)
    (item : NotifyItem) (rid : Nat) (reason r2 r0 : DismissReason)
    (now n2 n0 : Int) (c : Bool)
    (h1 : getNotification id s = some item)
    (h2 : item.confirmResolver = some rid)
    (h0 : getNotification id0 s = none) :
    resolverCalls (dismiss id reason now s).events
      = resolverCalls s.events ++ [(rid, false)]
  ∧ getNotification id (dismiss id reason now s) = some (dismissedItem item)
  ∧ (dismissedItem item).confirmResolver = none
  ∧ (dismissedItem item).visible = false
  ∧ resolverCalls (resolveConfirm id c (dismiss id reason now s)).events
      = resolverCalls (dismiss id reason now s).events
  ∧ resolverCalls (dismiss id r2 n2 (dismiss id reason now s)).events
      = resolverCalls (dismiss id reason now s).events
  ∧ dismiss id0 r0 n0 s = s := by
  have heq := dismiss_eq id reason now s item h1
  have hres1 : getNotification id (dismiss id reason now s)
      = some (dismissedItem item) := by
    rw [heq]
    simp [lookup_mapSet_self]
  refine ⟨?_, hres1, rfl, rfl, ?_, ?_, dismiss_unknown id0 r0 n0 s h0⟩
  · rw [heq]
    simp only
    rw [resolverCalls_append, resolverCalls_dismissEvents, h2]
  · rw [resolveConfirm_of_no_resolver id c _ (dismissedItem item) hres1 rfl]
  · rw [dismiss_eq id r2 n2 _ (dismissedItem item) hres1]
    simp only
    rw [resolverCalls_append, resolverCalls_dismissEvents]
    simp [dismissedItem]

/-- C4 witness: dismissing the confirm store (resolver token 7). -/
theorem c4_dismiss_force_resolves_witness :
    (getNotification "a" confirmStore
        = some { id := "a", state := NotifyState.confirm, message := "q",
                 options := {}, visible := true, prevState := NotifyState.idle,
                 confirmResolver := some 7, createdAt := 0, stateStartedAt := 0,
                 paused := false, remainingTime := none })
  ∧ (getNotification "zz" confirmStore = none)
  ∧ (resolverCalls (dismiss "a" DismissReason.manual 5 confirmStore).events
        = resolverCalls confirmStore.events ++ [(7, false)]
    ∧ getNotification "a" (dismiss "a" DismissReason.manual 5 confirmStore)
        = some (dismissedItem
            { id := "a", state := NotifyState.confirm, message := "q",
              options := {}, visible := true, prevState := NotifyState.idle,
              confirmResolver := some 7, createdAt := 0, stateStartedAt := 0,
              paused := false, remainingTime := none })
    ∧ (dismissedItem
        { id := "a", state := NotifyState.confirm, message := "q",
          options := {}, visible := true, prevState := NotifyState.idle,
          confirmResolver := some 7, createdAt := 0, stateStartedAt := 0,
          paused := false, remainingTime := none }).confirmResolver = none
    ∧ (dismissedItem
        { id := "a", state := NotifyState.confirm, message := "q",
          options := {}, visible := true, prevState := NotifyState.idle,
          confirmResolver := some 7, createdAt := 0, stateStartedAt := 0,
          paused := false, remainingTime := none }).visible = false
    ∧ resolverCalls (resolveConfirm "a" false
          (dismiss "a" DismissReason.manual 5 confirmStore)).events
        = resolverCalls (dismiss "a" DismissReason.manual 5 confirmStore).events
    ∧ resolverCalls (dismiss "a" DismissReason.swipe 9
          (dismiss "a" DismissReason.manual 5 confirmStore)).events
        = resolverCalls (dismiss "a" DismissReason.manual 5 confirmStore).events
    ∧ dismiss "zz" DismissReason.click 9 confirmStore = confirmStore) := by
  refine ⟨by decide, by decide, ?_⟩
  exact c4_dismiss_force_resolves confirmStore "a" "zz"
    { id := "a", state := NotifyState.confirm, message := "q", options := {},
      visible := true, prevState := NotifyState.idle, confirmResolver := some 7,
      createdAt := 0, stateStartedAt := 0, paused := false, remainingTime := none }
    7 DismissReason.manual DismissReason.swipe DismissReason.click 5 9 9 false
    (by decide) rfl (by decide)

/-! ### Claim C8 -/

@[simp] theorem events_logIf (b : Bool) (e : Event) (s : StoreState) :
    (logIf b e s).events = s.events ++ (if b then [e] else []) := by
  cases b <;> simp [logIf, logEvent]

theorem lookup_filter_self_none (id : String) (l : List (String × NotifyItem)) :
    lookup id (l.filter (fun p => ¬(p.1 == id))) = none := by
  have hf : (l.filter (fun p => ¬(p.1 == id))).find? (fun p => p.1 == id) = none := by
    rw [List.find?_eq_none]
    intro p hp
    have := (List.mem_filter.mp hp).2
    simpa using this
  simp [lookup, hf]

/-- C8: removal is two-phase.  `dismiss` on a resident id rewrites the
record with `visible = false` and a cleared resolver slot, broadcasts (the
appended event suffix ends in `emit`), and schedules the actual deletion
for `GRACE_MS` (300 ms) later — the record is still resident after the
`dismiss` step itself.  Running the scheduled deletion (`runRemoval`)
deletes the record, fires `onClose` when the captured options carry it,
and broadcasts a second time. -/
theorem c8_two_phase_removal (s : StoreState) (id : String) (item : NotifyItem)
    (reason : DismissReason) (now : Int)
    (h1 : getNotification id s = some item) :
    getNotification id (dismiss id reason now s) = some (dismissedItem item)
  ∧ (dismissedItem item).visible = false
  ∧ (dismiss id reason now s).events = s.events ++ dismissEvents id reason item
  ∧ (dismissEvents id reason item).getLast? = some Event.emit
  ∧ (dismiss id reason now s).pendingRemovals
      = s.pendingRemovals ++ [(id, now + GRACE_MS, item)]
  ∧ getNotification id (runRemoval id item (dismiss id reason now s)) = none
  ∧ (runRemoval id item (dismiss id reason now s)).events
      = (dismiss id reason now s).events
        ++ (if item.options.onClose.isSome then [Event.onCloseCall id] else [])
        ++ [Event.emit] := by
  have heq := dismiss_eq id reason now s item h1
  refine ⟨?_, rfl, by rw [heq], ?_, by rw [heq], ?_, ?_⟩
  · rw [heq]
    simp [lookup_mapSet_self]
  · cases hr : item.confirmResolver <;> cases hd : item.options.onDismiss <;>
      simp [dismissEvents, hr, hd]
  · simp only [runRemoval, getNotification_emit, getNotification_logIf,
      getNotification_update_notifications]
    exact lookup_filter_self_none id _
  · simp [runRemoval]

/-- C8 witness: dismissing the resident item of `pauseTrace0`. -/
theorem c8_two_phase_removal_witness :
    (getNotification "a" pauseTrace0
        = some { id := "a", state := NotifyState.success, message := "m",
                 options := { duration := some 3000 }, visible := true,
                 prevState := NotifyState.idle, confirmResolver := none,
                 createdAt := 0, stateStartedAt := 0, paused := false,
                 remainingTime := none })
  ∧ (getNotification "a" (dismiss "a" DismissReason.click 100 pauseTrace0)
        = some (dismissedItem
            { id := "a", state := NotifyState.success, message := "m",
              options := { duration := some 3000 }, visible := true,
              prevState := NotifyState.idle, confirmResolver := none,
              createdAt := 0, stateStartedAt := 0, paused := false,
              remainingTime := none })
    ∧ (dismissedItem
        { id := "a", state := NotifyState.success, message := "m",
          options := { duration := some 3000 }, visible := true,
          prevState := NotifyState.idle, confirmResolver := none,
          createdAt := 0, stateStartedAt := 0, paused := false,
          remainingTime := none }).visible = false
    ∧ (dismiss "a" DismissReason.click 100 pauseTrace0).events
        = pauseTrace0.events ++ dismissEvents "a" DismissReason.click
            { id := "a", state := NotifyState.success, message := "m",
              options := { duration := some 3000 }, visible := true,
              prevState := NotifyState.idle, confirmResolver := none,
              createdAt := 0, stateStartedAt := 0, paused := false,
              remainingTime := none }
    ∧ (dismissEvents "a" DismissReason.click
        { id := "a", state := NotifyState.success, message := "m",
          options := { duration := some 3000 }, visible := true,
          prevState := NotifyState.idle, confirmResolver := none,
          createdAt := 0, stateStartedAt := 0, paused := false,
          remainingTime := none }).getLast? = some Event.emit
    ∧ (dismiss "a" DismissReason.click 100 pauseTrace0).pendingRemovals
        = pauseTrace0.pendingRemovals ++ [("a", 100 + GRACE_MS,
            { id := "a", state := NotifyState.success, message := "m",
              options := { duration := some 3000 }, visible := true,
              prevState := NotifyState.idle, confirmResolver := none,
              createdAt := 0, stateStartedAt := 0, paused := false,
              remainingTime := none })]
    ∧ getNotification "a" (runRemoval "a"
        { id := "a", state := NotifyState.success, message := "m",
          options := { duration := some 3000 }, visible := true,
          prevState := NotifyState.idle, confirmResolver := none,
          createdAt := 0, stateStartedAt := 0, paused := false,
          remainingTime := none }
        (dismiss "a" DismissReason.click 100 pauseTrace0)) = none
    ∧ (runRemoval "a"
        { id := "a", state := NotifyState.success, message := "m",
          options := { duration := some 3000 }, visible := true,
          prevState := NotifyState.idle, confirmResolver := none,
          createdAt := 0, stateStartedAt := 0, paused := false,
          remainingTime := none }
        (dismiss "a" DismissReason.click 100 pauseTrace0)).events
        = (dismiss "a" DismissReason.click 100 pauseTrace0).events
          ++ (if ({ duration := some 3000 } : NotifyOptions).onClose.isSome
              then [Event.onCloseCall "a"] else [])
          ++ [Event.emit]) := by
  refine ⟨by decide, ?_⟩
  exact c8_two_phase_removal pauseTrace0 "a"
    { id := "a", state := NotifyState.success, message := "m",
      options := { duration := some 3000 }, visible := true,
      prevState := NotifyState.idle, confirmResolver := none,
      createdAt := 0, stateStartedAt := 0, paused := false, remainingTime := none }
    DismissReason.click 100 (by decide)

/-! ### Claim C5: helper lemmas -/

theorem mem_of_lookup_some (id : String) (v : NotifyItem)
    (l : List (String × NotifyItem)) (h : lookup id l = some v) : (id, v) ∈ l := by
  simp only [lookup] at h
  obtain ⟨p, hfind, hsnd⟩ := Option.map_eq_some'.mp h
  have hmem : p ∈ l := List.mem_of_find?_eq_some hfind
  have hkey : p.1 = id := by simpa using List.find?_some hfind
  have : (id, v) = p := by
    obtain ⟨a, b⟩ := p
    simp only at hkey hsnd
    rw [hkey, hsnd]
  rw [this]
  exact hmem

theorem lookup_of_mem_getNotifications (s : StoreState) (hwf : WFStore s)
    (it : NotifyItem) (hit : it ∈ getNotifications s) :
    lookup it.id s.notifications = some it := by
  have hval : it ∈ s.notifications.map (·.2) := (getNotifications_perm s).subset hit
  obtain ⟨p, hp, hpv⟩ := List.mem_map.mp hval
  have hkey : p.1 = it.id := by
    rw [← hpv]
    exact (hwf.2 p hp).symm
  have hpe : (it.id, it) = p := by
    obtain ⟨a, b⟩ := p
    simp only at hkey hpv
    rw [hkey, hpv]
  rw [← hpe] at hp
  exact lookup_of_mem_nodup it.id it s.notifications hp hwf.1

theorem visibleOthers_ids_nodup (ex : Option String) (s : StoreState)
    (hwf : WFStore s) : ((visibleOthers ex s).map (·.id)).Nodup := by
  have h1 : (s.notifications.map (·.2)).map (·.id) = s.notifications.map (·.1) := by
    rw [List.map_map]
    exact List.map_congr_left (fun p hp => hwf.2 p hp)
  have h2 : ((s.notifications.map (·.2)).map (·.id)).Nodup := by
    rw [h1]
    exact hwf.1
  have h3 : ((getNotifications s).map (·.id)).Nodup :=
    ((getNotifications_perm s).map (·.id)).symm.nodup h2
  have hsub : (visibleOthers ex s).Sublist (getNotifications s) := by
    unfold visibleOthers
    exact List.filter_sublist _
  exact h3.sublist (hsub.map (·.id))

theorem foldl_dismiss_spec (now : Int) (R : List NotifyItem) :
    ∀ s : StoreState,
    (s.notifications.map (·.1)).Nodup →
    (R.map (·.id)).Nodup →
    (∀ it ∈ R, lookup it.id s.notifications = some it) →
    (R.foldl (fun acc it => dismiss it.id DismissReason.replaced now acc) s).notifications
        = s.notifications.map (fun p =>
            if p.1 ∈ R.map (·.id) then (p.1, dismissedItem p.2) else p)
  ∧ (∀ e ∈ s.events,
        e ∈ (R.foldl (fun acc it => dismiss it.id DismissReason.replaced now acc)
              s).events)
  ∧ (∀ it ∈ R, Event.dismissCall it.id DismissReason.replaced
        ∈ (R.foldl (fun acc it => dismiss it.id DismissReason.replaced now acc)
            s).events) := by
  induction R with
  | nil =>
    intro s hk hnd hmem
    refine ⟨by simp, fun e he => he, fun it hit => absurd hit (List.not_mem_nil it)⟩
  | cons it rest ih =>
    intro s hk hnd hmem
    have hlook : lookup it.id s.notifications = some it :=
      hmem it (List.mem_cons_self it rest)
    have hsome : (lookup it.id s.notifications).isSome := by rw [hlook]; rfl
    have heq := dismiss_eq it.id DismissReason.replaced now s it hlook
    have hn1 : (dismiss it.id DismissReason.replaced now s).notifications
        = s.notifications.map (fun p =>
            if p.1 == it.id then (it.id, dismissedItem it) else p) := by
      rw [heq]
      exact mapSet_of_lookup_some it.id (dismissedItem it) s.notifications hsome hk
    have hkeys1 : ((dismiss it.id DismissReason.replaced now s).notifications.map
        (·.1)).Nodup := by
      rw [heq]
      simp only
      rw [keys_mapSet_of_lookup_some it.id (dismissedItem it) s.notifications hsome hk]
      exact hk
    have hnd' : (it.id :: rest.map (·.id)).Nodup := by simpa using hnd
    have hndrest : (rest.map (·.id)).Nodup := (List.nodup_cons.mp hnd').2
    have hitnot : it.id ∉ rest.map (·.id) := (List.nodup_cons.mp hnd').1
    have hmem1 : ∀ r ∈ rest,
        lookup r.id (dismiss it.id DismissReason.replaced now s).notifications
          = some r := by
      intro r hr
      have hne : ¬(r.id = it.id) := by
        intro hcon
        exact hitnot (hcon ▸ List.mem_map.mpr ⟨r, hr, rfl⟩)
      rw [heq]
      simp only
      rw [lookup_mapSet_ne it.id r.id (dismissedItem it) s.notifications hne]
      exact hmem r (List.mem_cons_of_mem it hr)
    obtain ⟨ihn, ihe, ihd⟩ :=
      ih (dismiss it.id DismissReason.replaced now s) hkeys1 hndrest hmem1
    have hevents1 : ∀ e ∈ s.events,
        e ∈ (dismiss it.id DismissReason.replaced now s).events := by
      intro e he
      rw [heq]
      simp only [List.mem_append]
      exact Or.inl he
    refine ⟨?_, ?_, ?_⟩
    · rw [List.foldl_cons, ihn, hn1, List.map_map]
      refine List.map_congr_left ?_
      intro p hp
      by_cases hpid : p.1 = it.id
      · have hval : p.2 = it := by
          have h1 : lookup p.1 s.notifications = some p.2 :=
            lookup_of_mem_nodup p.1 p.2 s.notifications hp hk
          rw [hpid, hlook] at h1
          exact (Option.some.inj h1).symm
        simp [Function.comp, hpid, hval, hitnot]
      · simp [Function.comp, hpid]
    · intro e he
      rw [List.foldl_cons]
      exact ihe e (hevents1 e he)
    · intro r hr
      rw [List.foldl_cons]
      rcases List.mem_cons.mp hr with hre | hr2
      · subst hre
        apply ihe
        rw [heq]
        simp [dismissEvents]
      · exact ihd r hr2

theorem filter_after_map_evict (l : List (String × NotifyItem)) (ids : List String)
    (P : NotifyItem → Bool) (hP : ∀ it, P (dismissedItem it) = false) :
    ((l.map (fun p => if p.1 ∈ ids then (p.1, dismissedItem p.2) else p)).filter
        (fun p => P p.2)).length
      = (l.filter (fun p => P p.2 && !(decide (p.1 ∈ ids)))).length := by
  induction l with
  | nil => rfl
  | cons p ps ih =>
    by_cases hmem : p.1 ∈ ids
    · simp [hmem, hP, ih]
    · cases hPp : P p.2 <;> simp [hmem, hPp, ih]

theorem length_filter_and_split {α : Type} (l : List α) (P Q : α → Bool) :
    (l.filter P).length
      = (l.filter (fun a => P a && Q a)).length
        + (l.filter (fun a => P a && !(Q a))).length := by
  induction l with
  | nil => rfl
  | cons x xs ih =>
    cases hP : P x <;> cases hQ : Q x <;> simp [hP, hQ, ih] <;> omega

theorem length_filter_key_mem (l : List (String × NotifyItem)) (ids : List String)
    (P : NotifyItem → Bool) (hk : (l.map (·.1)).Nodup) (hids : ids.Nodup)
    (hsub : ∀ i ∈ ids, ∃ p, p ∈ l ∧ p.1 = i ∧ P p.2 = true) :
    (l.filter (fun p => P p.2 && decide (p.1 ∈ ids))).length = ids.length := by
  have hsubl : (l.filter (fun p => P p.2 && decide (p.1 ∈ ids))).Sublist l :=
    List.filter_sublist l
  have hmapnodup :
      ((l.filter (fun p => P p.2 && decide (p.1 ∈ ids))).map (·.1)).Nodup :=
    hk.sublist (hsubl.map (·.1))
  have hiff : ∀ a,
      a ∈ (l.filter (fun p => P p.2 && decide (p.1 ∈ ids))).map (·.1) ↔ a ∈ ids := by
    intro a
    constructor
    · intro ha
      obtain ⟨p, hp, hpk⟩ := List.mem_map.mp ha
      have hcond := (List.mem_filter.mp hp).2
      rw [← hpk]
      simpa using (Bool.and_eq_true_iff.mp hcond).2
    · intro ha
      obtain ⟨p, hpl, hpk, hpP⟩ := hsub a ha
      refine List.mem_map.mpr ⟨p, List.mem_filter.mpr ⟨hpl, ?_⟩, hpk⟩
      rw [hpP, hpk]
      simpa using ha
  have hperm := (List.perm_ext_iff_of_nodup hmapnodup hids).mpr hiff
  calc (l.filter (fun p => P p.2 && decide (p.1 ∈ ids))).length
      = ((l.filter (fun p => P p.2 && decide (p.1 ∈ ids))).map (·.1)).length := by
        rw [List.length_map]
    _ = ids.length := hperm.length_eq

theorem visiblePairCount_eq (ex : Option String) (s : StoreState) :
    visiblePairCount ex s = (visibleOthers ex s).length := by
  unfold visiblePairCount visibleOthers
  have h1 : ((getNotifications s).filter
        (fun it => it.visible && !(some it.id == ex))).length
      = ((s.notifications.map (·.2)).filter
          (fun it => it.visible && !(some it.id == ex))).length :=
    ((getNotifications_perm s).filter _).length_eq
  rw [h1, List.filter_map, List.length_map]
  rfl

/-! ### Claim C5 -/

/-- C5: with `maxVisible ≥ 1` on a well-formed store, `enforceMaxVisible`
is a strict no-op when fewer than `maxVisible` items other than
`excludeId` are visible; otherwise it dismisses (reason `replaced`)
exactly the evicted prefix — the oldest-by-`createdAt` visible items other
than `excludeId` — leaving exactly `maxVisible - 1` such items visible,
and every evicted item is at least as old as every surviving one. -/
theorem c5_enforceMaxVisible (mv : Nat) (ex : Option String) (now : Int)
    (s : StoreState) (hwf : WFStore s) (hmv : 1 ≤ mv) :
    ((visibleOthers ex s).length < mv → enforceMaxVisible mv ex now s = s)
  ∧ (mv ≤ (visibleOthers ex s).length →
      (enforceMaxVisible mv ex now s).notifications
        = s.notifications.map (fun p =>
            if p.1 ∈ (evicted mv ex s).map (·.id) then (p.1, dismissedItem p.2)
            else p)
    ∧ (∀ it ∈ evicted mv ex s, Event.dismissCall it.id DismissReason.replaced
          ∈ (enforceMaxVisible mv ex now s).events)
    ∧ visiblePairCount ex (enforceMaxVisible mv ex now s) = mv - 1
    ∧ (∀ a ∈ evicted mv ex s,
        ∀ b ∈ (visibleOthers ex s).drop (evictCount mv ex s),
          a.createdAt ≤ b.createdAt)) := by
  constructor
  · intro hlt
    unfold visibleOthers at hlt
    simp only [enforceMaxVisible]
    rw [if_neg (not_le.mpr hlt)]
  · intro hge
    have hk := hwf.1
    have hvnodup := visibleOthers_ids_nodup ex s hwf
    have htake_sub : (evicted mv ex s).Sublist (visibleOthers ex s) := by
      unfold evicted
      exact List.take_sublist _ _
    have hev_nodup : ((evicted mv ex s).map (·.id)).Nodup :=
      hvnodup.sublist (htake_sub.map (·.id))
    have hlookup : ∀ it ∈ evicted mv ex s, lookup it.id s.notifications = some it := by
      intro it hit
      have h1 : it ∈ visibleOthers ex s := htake_sub.subset hit
      have h2 : it ∈ getNotifications s := by
        unfold visibleOthers at h1
        exact List.mem_of_mem_filter h1
      exact lookup_of_mem_getNotifications s hwf it h2
    obtain ⟨hN, hE, hD⟩ :=
      foldl_dismiss_spec now (evicted mv ex s) s hk hev_nodup hlookup
    have hge' : mv ≤ ((getNotifications s).filter
        (fun it => it.visible && !(some it.id == ex))).length := by
      unfold visibleOthers at hge
      exact hge
    have henf : enforceMaxVisible mv ex now s
        = (evicted mv ex s).foldl
            (fun acc it => dismiss it.id DismissReason.replaced now acc) s := by
      unfold enforceMaxVisible evicted evictCount visibleOthers
      rw [if_pos hge']
    refine ⟨by rw [henf]; exact hN, ?_, ?_, ?_⟩
    · intro it hit
      rw [henf]
      exact hD it hit
    · -- the count of surviving visible items other than excludeId
      have hPd : ∀ it2 : NotifyItem,
          ((dismissedItem it2).visible && !(some (dismissedItem it2).id == ex))
            = false := by
        intro it2
        simp [dismissedItem]
      have h5 : ((s.notifications.map (fun p =>
            if p.1 ∈ (evicted mv ex s).map (·.id) then (p.1, dismissedItem p.2)
            else p)).filter (fun p => p.2.visible && !(some p.2.id == ex))).length
          = (s.notifications.filter (fun p =>
              (p.2.visible && !(some p.2.id == ex))
                && !(decide (p.1 ∈ (evicted mv ex s).map (·.id))))).length :=
        filter_after_map_evict s.notifications ((evicted mv ex s).map (·.id))
          (fun it => it.visible && !(some it.id == ex)) hPd
      have hsplit : (s.notifications.filter
            (fun p => p.2.visible && !(some p.2.id == ex))).length
          = (s.notifications.filter (fun p =>
              (p.2.visible && !(some p.2.id == ex))
                && decide (p.1 ∈ (evicted mv ex s).map (·.id)))).length
            + (s.notifications.filter (fun p =>
                (p.2.visible && !(some p.2.id == ex))
                  && !(decide (p.1 ∈ (evicted mv ex s).map (·.id))))).length :=
        length_filter_and_split s.notifications
          (fun p => p.2.visible && !(some p.2.id == ex))
          (fun p => decide (p.1 ∈ (evicted mv ex s).map (·.id)))
      have hmemlen : (s.notifications.filter (fun p =>
            (p.2.visible && !(some p.2.id == ex))
              && decide (p.1 ∈ (evicted mv ex s).map (·.id)))).length
          = ((evicted mv ex s).map (·.id)).length := by
        refine length_filter_key_mem s.notifications ((evicted mv ex s).map (·.id))
          (fun it => it.visible && !(some it.id == ex)) hk hev_nodup ?_
        intro i hi
        obtain ⟨it, hit, rfl⟩ := List.mem_map.mp hi
        have hl := hlookup it hit
        refine ⟨(it.id, it), mem_of_lookup_some _ _ _ hl, rfl, ?_⟩
        have h1 : it ∈ visibleOthers ex s := htake_sub.subset hit
        unfold visibleOthers at h1
        exact (List.mem_filter.mp h1).2
      have hvc : (s.notifications.filter
            (fun p => p.2.visible && !(some p.2.id == ex))).length
          = (visibleOthers ex s).length := visiblePairCount_eq ex s
      have hok : evictCount mv ex s ≤ (visibleOthers ex s).length := by
        unfold evictCount
        omega
      have hek : ((evicted mv ex s).map (·.id)).length = evictCount mv ex s := by
        rw [List.length_map]
        unfold evicted
        rw [List.length_take]
        omega
      have hkdef : evictCount mv ex s = (visibleOthers ex s).length - mv + 1 := rfl
      rw [henf]
      unfold visiblePairCount
      rw [hN, h5]
      omega
    · intro a ha b hb
      have hpair : (visibleOthers ex s).Pairwise
          (fun a b => a.createdAt ≤ b.createdAt) := by
        unfold visibleOthers
        exact (getNotifications_pairwise s).filter _
      have hsplit2 := List.take_append_drop (evictCount mv ex s) (visibleOthers ex s)
      rw [← hsplit2] at hpair
      have ha' : a ∈ (visibleOthers ex s).take (evictCount mv ex s) := by
        unfold evicted at ha
        exact ha
      exact (List.pairwise_append.mp hpair).2.2 a ha' b hb

/-- C5 witness: three notifications A, B, C created in order through the
facade under `maxVisible = 2`.  Before C is inserted the store holds the
two visible items A and B, so the theorem applies with `excludeId = C`;
and in the final store A is dismissed with reason `replaced` while B and C
are visible. -/
theorem c5_enforceMaxVisible_witness :
    WFStore facadeB
  ∧ 1 ≤ 2
  ∧ (2 ≤ (visibleOthers (some "C") facadeB).length →
      (enforceMaxVisible 2 (some "C") 2 facadeB).notifications
        = facadeB.notifications.map (fun p =>
            if p.1 ∈ (evicted 2 (some "C") facadeB).map (·.id)
            then (p.1, dismissedItem p.2) else p)
    ∧ (∀ it ∈ evicted 2 (some "C") facadeB,
        Event.dismissCall it.id DismissReason.replaced
          ∈ (enforceMaxVisible 2 (some "C") 2 facadeB).events)
    ∧ visiblePairCount (some "C") (enforceMaxVisible 2 (some "C") 2 facadeB) = 2 - 1
    ∧ (∀ a ∈ evicted 2 (some "C") facadeB,
        ∀ b ∈ (visibleOthers (some "C") facadeB).drop (evictCount 2 (some "C") facadeB),
          a.createdAt ≤ b.createdAt))
  ∧ 2 ≤ (visibleOthers (some "C") facadeB).length
  ∧ (evicted 2 (some "C") facadeB).map (·.id) = ["A"]
  ∧ (getNotification "A" facadeC).map (·.visible) = some false
  ∧ (getNotification "B" facadeC).map (·.visible) = some true
  ∧ (getNotification "C" facadeC).map (·.visible) = some true
  ∧ Event.dismissCall "A" DismissReason.replaced ∈ facadeC.events := by
  refine ⟨by decide, by decide, ?_, by decide, by decide, by decide, by decide,
    by decide, by decide⟩
  exact (c5_enforceMaxVisible 2 (some "C") 2 facadeB (by decide) (by decide)).2

end Notifier
